import Mathlib

/-! Shallow embedding of src/script.py, a CPU and AMD GPU telemetry polling
script. Machine reals of the script (psutil percentages, pyadl readings,
wall-clock seconds) are modelled as rationals, and wall-clock time is an
explicit model clock threaded through the sampling loop. -/

namespace AmdMon

/-- Outcome of calling one pyadl device method: a returned value, an
AttributeError (the method is not supported by this device), or some other
exception carrying a message. -/
inductive RR where
  | ok (v : ℚ)
  | attrErr
  | exn (e : String)
deriving DecidableEq

/-- One pyadl device, modelled by the outcomes of the four probe methods the
script calls on devices[0]. -/
structure Device where
  getCurrentUsage : RR
  getCurrentTemperature : RR
  getCurrentPower : RR
  getCurrentPowerValue : RR
deriving DecidableEq

/-- Outcome of pyadl.ADLManager.getInstance().getDevices(): a device list, or
an exception raised during this bulk-initialization step. -/
inductive EnumResult where
  | ok (devices : List Device)
  | exn (e : String)
deriving DecidableEq

/-- Environment a single get_amd_gpu_stats call runs in: the module-level
amd_gpu_available flag (import pyadl succeeded), and the enumeration outcome. -/
structure GpuEnv where
  amd_gpu_available : Bool
  enum : EnumResult
deriving DecidableEq

/-- Model of one try/except-AttributeError/pass block around a probe
(lines 32-41 of script.py): an AttributeError leaves the slot at None, and
any other exception escapes to the enclosing handler. -/
def tryAttr (r : RR) : Except String (Option ℚ) :=
  match r with
  | .ok v => .ok (some v)
  | .attrErr => .ok none
  | .exn e => .error e

/-- Two-tier power reading (lines 44-51 of script.py): try
gpu.getCurrentPower(); on AttributeError fall back to
gpu.getCurrentPowerValue() / 1000 converting milliwatts to watts; if that is
also an AttributeError, power stays None. Non-AttributeError exceptions
escape. -/
def readPower (gpu : Device) : Except String (Option ℚ) :=
  match gpu.getCurrentPower with
  | .ok v => .ok (some v)
  | .exn e => .error e
  | .attrErr =>
    match gpu.getCurrentPowerValue with
    | .ok v => .ok (some (v / 1000))
    | .exn e => .error e
    | .attrErr => .ok none

/-- Body of the outer try of get_amd_gpu_stats (lines 18-53 of script.py):
enumerate devices, return the all-None triple when no device is found, and
otherwise read utilization, temperature and power from devices[0]. -/
def readBody (enum : EnumResult) : Except String (Option ℚ × Option ℚ × Option ℚ) :=
  match enum with
  | .exn e => .error e
  | .ok [] => .ok (none, none, none)
  | .ok (gpu :: _) => do
    let u ← tryAttr gpu.getCurrentUsage
    let t ← tryAttr gpu.getCurrentTemperature
    let p ← readPower gpu
    return (u, t, p)

/-- Diagnostic line printed by the outer except handler (line 56). -/
def errMsg (e : String) : String := "\nError al leer GPU AMD: " ++ e

/-- get_amd_gpu_stats (lines 12-57 of script.py): returns the triple of
optional metrics together with the list of diagnostic lines the call
printed. -/
def get_amd_gpu_stats (env : GpuEnv) : (Option ℚ × Option ℚ × Option ℚ) × List String :=
  if env.amd_gpu_available = false then ((none, none, none), [])
  else
    match readBody env.enum with
    | .ok r => (r, [])
    | .error e => ((none, none, none), [errMsg e])

/-- Inputs of one iteration of the sampling loop: the value
psutil.cpu_percent(interval=0.1) returns this tick, the GPU environment this
tick runs in, and the wall-clock time the GPU read takes in the model clock. -/
structure Tick where
  cpu_util : ℚ
  gpuEnv : GpuEnv
  gpuTime : ℚ
deriving DecidableEq

/-- One record appended to data (lines 75-81 of script.py). The field time is
the model clock at the moment the script evaluates its strftime timestamp. -/
structure Sample where
  time : ℚ
  cpu_util : ℚ
  gpu_util : Option ℚ
  gpu_temp : Option ℚ
  gpu_power : Option ℚ
deriving DecidableEq

/-- Metric triple a tick obtains from get_amd_gpu_stats. -/
def tickStats (tk : Tick) : Option ℚ × Option ℚ × Option ℚ :=
  (get_amd_gpu_stats tk.gpuEnv).1

/-- One-decimal rendering of a rational, modelling the .1f format of the
script. -/
def fmt1 (q : ℚ) : String :=
  let n : ℤ := round (q * 10)
  toString (n / 10) ++ "." ++ toString (n % 10)

/-- Model of the expression gpu_util or N/A in the status line (line 85): a
Python or falls through on falsy values, so both None and 0 render as the
placeholder. -/
def pyOrNA (v : Option ℚ) : String :=
  match v with
  | none => "N/A"
  | some q => if q = 0 then "N/A" else toString q

/-- Model of power_display (line 84): formatted watts when the value is not
None, otherwise the placeholder. -/
def powerDisplay (v : Option ℚ) : String :=
  match v with
  | some q => fmt1 q ++ "W"
  | none => "N/A"

/-- Live status line printed each tick (line 85 of script.py). -/
def statusLine (cpu : ℚ) (u t p : Option ℚ) : String :=
  "\r[CPU: " ++ fmt1 cpu ++ "% | GPU: " ++ pyOrNA u ++ "% | Temp: " ++ pyOrNA t
    ++ "°C | Power: " ++ powerDisplay p ++ "]"

/-- Sample a tick appends, timestamped at model clock ts. -/
def tickSample (tk : Tick) (ts : ℚ) : Sample :=
  ⟨ts, tk.cpu_util, (tickStats tk).1, (tickStats tk).2.1, (tickStats tk).2.2⟩

/-- Status line a tick prints. -/
def tickLine (tk : Tick) : String :=
  statusLine tk.cpu_util (tickStats tk).1 (tickStats tk).2.1 (tickStats tk).2.2

/-- Amount passed to time.sleep at the end of each tick (line 87 of
script.py): max(0, interval - 0.1). -/
def sleepAmount (interval : ℚ) : ℚ := max 0 (interval - 1/10)

/-- The while loop of monitor_system (lines 67-87 of script.py) on the model
clock: while t is before endTime, a tick reads the CPU for 0.1 time units,
reads the GPU, takes the timestamp, appends its sample, prints its status
line and sleeps. The clock advances by exactly the time those steps take.
The fuel argument bounds the recursion and is irrelevant whenever it is at
least the number of iterations the time budget allows. Returns the list of
(sample, printed status line) pairs and the clock at loop exit. -/
def monitorGo (ticks : ℕ → Tick) (interval endTime : ℚ) (t : ℚ) (n fuel : ℕ) :
    List (Sample × String) × ℚ :=
  match fuel with
  | 0 => ([], t)
  | fuel' + 1 =>
    if t < endTime then
      ((tickSample (ticks n) (t + 1/10 + (ticks n).gpuTime), tickLine (ticks n)) ::
          (monitorGo ticks interval endTime
            (t + 1/10 + (ticks n).gpuTime + sleepAmount interval) (n + 1) fuel').1,
        (monitorGo ticks interval endTime
          (t + 1/10 + (ticks n).gpuTime + sleepAmount interval) (n + 1) fuel').2)
    else ([], t)

/-- monitor_system (lines 59-89 of script.py): end_time is the clock at entry
plus duration; the loop then runs and the collected samples are returned
(the script wraps them in a DataFrame). Also exposes the clock at loop exit. -/
def monitor_system (ticks : ℕ → Tick) (duration interval t0 : ℚ) (fuel : ℕ) :
    List Sample × ℚ :=
  ((monitorGo ticks interval (t0 + duration) t0 0 fuel).1.map Prod.fst,
    (monitorGo ticks interval (t0 + duration) t0 0 fuel).2)

/-- Elapsed model time between the first and the last timestamp of a sample
collection. -/
def tsSpan (df : List Sample) : ℚ :=
  ((df.getLast?.map Sample.time).getD 0) - ((df.head?.map Sample.time).getD 0)

/-- What main prints for one GPU metric in the final summary: a mean, or the
statement that the metric is unavailable. -/
inductive MetricReport where
  | value (m : ℚ)
  | unavailable
deriving DecidableEq

/-- Mean of the non-missing values of one optional column of the collection,
guarded by the isnull().all() check of main (lines 119-133 of script.py). -/
def reportMetric (f : Sample → Option ℚ) (df : List Sample) : MetricReport :=
  if df.filterMap f = [] then .unavailable
  else .value ((df.filterMap f).sum / (df.filterMap f).length)

/-- The three GPU aggregates of the final summary. -/
def aggregateReport (df : List Sample) :
    MetricReport × MetricReport × MetricReport :=
  (reportMetric Sample.gpu_util df, reportMetric Sample.gpu_temp df,
    reportMetric Sample.gpu_power df)

/-- Serialization of one optional cell in the CSV export: absent values
become empty fields. -/
def optCell (v : Option ℚ) : String :=
  match v with
  | none => ""
  | some q => toString q

/-- Header row of the exported CSV, in DataFrame column order. -/
def csvHeader : String := "timestamp,cpu_util,gpu_util,gpu_temp,gpu_power"

/-- One CSV row per sample. -/
def csvRow (s : Sample) : String :=
  toString s.time ++ "," ++ toString s.cpu_util ++ "," ++ optCell s.gpu_util
    ++ "," ++ optCell s.gpu_temp ++ "," ++ optCell s.gpu_power

/-- Lines of the file df.to_csv writes (index=False): the header then one row
per sample. -/
def to_csv (df : List Sample) : List String := csvHeader :: df.map csvRow

/-- Python str.lower applied to the prompt answer (line 136 of script.py). -/
def pyLower (s : String) : String := ⟨s.data.map Char.toLower⟩

/-- Name of the exported file (line 138 of script.py), where stamp stands for
the strftime capture timestamp of the form YYYYMMDD_HHMMSS. -/
def csvFilename (stamp : String) : String := "rx460_monitor_" ++ stamp ++ ".csv"

/-- Save step of main (lines 136-140 of script.py): the lowercased answer is
compared against the letter s; on a match the CSV is written under the
stamped name, otherwise nothing is written. -/
def saveData (inp stamp : String) (df : List Sample) : Option (String × List String) :=
  if pyLower inp = "s" then some (csvFilename stamp, to_csv df) else none

/-- Guidance printed by main when pyadl is not importable (lines 106-109). -/
def pyadlGuidance : List String :=
  ["\nADL no disponible. Instala pyadl para monitorear la GPU AMD",
    "Ejecuta: pip install pyadl",
    "Asegúrate de tener los drivers AMD Adrenalin instalados",
    "Reinicia después de instalar los drivers"]

/-- Result of one run of main. -/
inductive MainOutcome where
  | depsMissing
  | gpuGuidance (lines : List String)
  | ran (df : List Sample) (report : MetricReport × MetricReport × MetricReport)
      (saved : Option (String × List String))
deriving DecidableEq

/-- main (lines 91-140 of script.py): dependency check, then the pyadl gate,
then a 20 second run at interval 1, the aggregate summary and the optional
CSV export. -/
def main (depsOk amd : Bool) (ticks : ℕ → Tick) (t0 : ℚ) (fuel : ℕ)
    (saveInput stamp : String) : MainOutcome :=
  if depsOk = false then .depsMissing
  else if amd = false then .gpuGuidance pyadlGuidance
  else
    let df := (monitor_system ticks 20 1 t0 fuel).1
    .ran df (aggregateReport df) (saveData saveInput stamp df)

/-- Constant tick stream used for concrete runs: CPU at 50 percent, pyadl not
importable, instantaneous GPU read. -/
def cticks : ℕ → Tick := fun _ => ⟨50, ⟨false, EnumResult.ok []⟩, 0⟩

/-- Tick stream equal to cticks except that on tick 3 the GPU read raises an
unexpected exception. -/
def cticksF : ℕ → Tick :=
  fun n => if n = 3 then ⟨50, ⟨true, EnumResult.exn "boom"⟩, 0⟩ else cticks n

/-- Device whose utilization and temperature both read 0 and whose power
probes are both unsupported. -/
def dev0 : Device := ⟨.ok 0, .ok 0, .attrErr, .attrErr⟩

/-- Tick in which both GPU utilization and temperature read exactly 0. -/
def tk0 : Tick := ⟨50, ⟨true, EnumResult.ok [dev0]⟩, 0⟩

/-- Collection in which every GPU utilization is absent while power is
present twice. -/
def dfW : List Sample :=
  [⟨1/10, 50, none, none, some 3⟩, ⟨11/10, 60, none, some 2, some 5⟩]

lemma monitorGo_succ_pos (ticks : ℕ → Tick) (I eT t : ℚ) (n fuel : ℕ)
    (h : t < eT) :
    monitorGo ticks I eT t n (fuel + 1) =
      ((tickSample (ticks n) (t + 1/10 + (ticks n).gpuTime), tickLine (ticks n)) ::
          (monitorGo ticks I eT (t + 1/10 + (ticks n).gpuTime + sleepAmount I)
            (n + 1) fuel).1,
        (monitorGo ticks I eT (t + 1/10 + (ticks n).gpuTime + sleepAmount I)
          (n + 1) fuel).2) := by
  simp only [monitorGo]
  rw [if_pos h]

lemma monitorGo_succ_neg (ticks : ℕ → Tick) (I eT t : ℚ) (n fuel : ℕ)
    (h : ¬ t < eT) :
    monitorGo ticks I eT t n (fuel + 1) = ([], t) := by
  simp only [monitorGo]
  rw [if_neg h]

lemma monitorGo_agree (ticks1 ticks2 : ℕ → Tick) (I eT : ℚ) :
    ∀ (fuel : ℕ) (t : ℚ) (n : ℕ), (∀ m, n ≤ m → ticks1 m = ticks2 m) →
      monitorGo ticks1 I eT t n fuel = monitorGo ticks2 I eT t n fuel := by
  intro fuel
  induction fuel with
  | zero => intro t n _; rfl
  | succ fuel ih =>
    intro t n h
    by_cases htE : t < eT
    · have e : ticks1 n = ticks2 n := h n le_rfl
      rw [monitorGo_succ_pos _ _ _ _ _ _ htE, monitorGo_succ_pos _ _ _ _ _ _ htE, e,
        ih _ (n + 1) (fun m hm => h m (by omega))]
    · rw [monitorGo_succ_neg _ _ _ _ _ _ htE, monitorGo_succ_neg _ _ _ _ _ _ htE]

lemma monitorGo_congr_except (ticks1 ticks2 : ℕ → Tick) (k : ℕ)
    (hne : ∀ m, m ≠ k → ticks1 m = ticks2 m)
    (hgt : (ticks1 k).gpuTime = (ticks2 k).gpuTime)
    (I eT : ℚ) :
    ∀ (fuel : ℕ) (t : ℚ) (n : ℕ),
      (monitorGo ticks1 I eT t n fuel).2 = (monitorGo ticks2 I eT t n fuel).2 ∧
      (monitorGo ticks1 I eT t n fuel).1.length
        = (monitorGo ticks2 I eT t n fuel).1.length ∧
      ∀ j, n + j ≠ k →
        ((monitorGo ticks1 I eT t n fuel).1.map Prod.fst)[j]? =
          ((monitorGo ticks2 I eT t n fuel).1.map Prod.fst)[j]? := by
  intro fuel
  induction fuel with
  | zero => intro t n; exact ⟨rfl, rfl, fun _ _ => rfl⟩
  | succ fuel ih =>
    intro t n
    by_cases htE : t < eT
    · rcases eq_or_ne n k with hnk | hnk
      · subst hnk
        have htail :
            monitorGo ticks1 I eT (t + 1/10 + (ticks1 n).gpuTime + sleepAmount I)
                (n + 1) fuel
              = monitorGo ticks2 I eT (t + 1/10 + (ticks1 n).gpuTime + sleepAmount I)
                (n + 1) fuel :=
          monitorGo_agree _ _ _ _ fuel _ (n + 1) (fun m hm => hne m (by omega))
        rw [monitorGo_succ_pos _ _ _ _ _ _ htE, monitorGo_succ_pos _ _ _ _ _ _ htE,
          ← hgt]
        refine ⟨?_, ?_, ?_⟩
        · rw [htail]
        · simp only [List.length_cons]
          rw [htail]
        · intro j hj
          match j with
          | 0 => exact (hj (by omega)).elim
          | j + 1 =>
            simp only [List.map_cons, List.getElem?_cons_succ]
            rw [htail]
      · have e : ticks1 n = ticks2 n := hne n hnk
        rw [monitorGo_succ_pos _ _ _ _ _ _ htE, monitorGo_succ_pos _ _ _ _ _ _ htE, e]
        obtain ⟨ih1, ih2, ih3⟩ :=
          ih (t + 1/10 + (ticks2 n).gpuTime + sleepAmount I) (n + 1)
        refine ⟨ih1, ?_, ?_⟩
        · simp only [List.length_cons]
          omega
        · intro j hj
          match j with
          | 0 => simp only [List.map_cons, List.getElem?_cons_zero]
          | j + 1 =>
            simp only [List.map_cons, List.getElem?_cons_succ]
            exact ih3 j (by omega)
    · rw [monitorGo_succ_neg _ _ _ _ _ _ htE, monitorGo_succ_neg _ _ _ _ _ _ htE]
      exact ⟨rfl, rfl, fun _ _ => rfl⟩

lemma monitorGo_content (ticks : ℕ → Tick) (I eT : ℚ) :
    ∀ (fuel : ℕ) (t : ℚ) (n j : ℕ) (s : Sample),
      ((monitorGo ticks I eT t n fuel).1.map Prod.fst)[j]? = some s →
      s.cpu_util = (ticks (n + j)).cpu_util ∧
      s.gpu_util = (tickStats (ticks (n + j))).1 ∧
      s.gpu_temp = (tickStats (ticks (n + j))).2.1 ∧
      s.gpu_power = (tickStats (ticks (n + j))).2.2 := by
  intro fuel
  induction fuel with
  | zero => intro t n j s h; simp [monitorGo] at h
  | succ fuel ih =>
    intro t n j s h
    by_cases htE : t < eT
    · rw [monitorGo_succ_pos _ _ _ _ _ _ htE] at h
      match j with
      | 0 =>
        simp only [List.map_cons, List.getElem?_cons_zero, Option.some.injEq] at h
        subst h
        simp [tickSample]
      | j + 1 =>
        simp only [List.map_cons, List.getElem?_cons_succ] at h
        have hq := ih _ (n + 1) j s h
        rwa [show n + 1 + j = n + (j + 1) by omega] at hq
    · rw [monitorGo_succ_neg _ _ _ _ _ _ htE] at h
      simp at h

lemma sleepAmount_of_le {I : ℚ} (h : 1/10 ≤ I) : sleepAmount I = I - 1/10 := by
  have h0 : (0 : ℚ) ≤ I - 1/10 := by linarith
  rw [sleepAmount]
  exact max_eq_right h0

lemma monitorGo_exit (ticks : ℕ → Tick) (I eT : ℚ)
    (hgt : ∀ n, (ticks n).gpuTime = 0) (hI : 1/10 ≤ I) :
    ∀ (fuel : ℕ) (t : ℚ) (n : ℕ), eT ≤ t + (fuel : ℚ) * (1/10) →
      eT ≤ (monitorGo ticks I eT t n fuel).2 ∧
      ((monitorGo ticks I eT t n fuel).2 = t ∨
        (monitorGo ticks I eT t n fuel).2 < eT + I) := by
  intro fuel
  induction fuel with
  | zero =>
    intro t n h
    push_cast at h
    refine ⟨by simpa [monitorGo] using by linarith, Or.inl rfl⟩
  | succ fuel ih =>
    intro t n h
    by_cases htE : t < eT
    · rw [monitorGo_succ_pos _ _ _ _ _ _ htE]
      have hadv : t + 1/10 + (ticks n).gpuTime + sleepAmount I = t + I := by
        rw [hgt n, sleepAmount_of_le hI]
        ring
      have hpre : eT ≤ (t + 1/10 + (ticks n).gpuTime + sleepAmount I)
          + (fuel : ℚ) * (1/10) := by
        rw [hadv]
        push_cast at h
        linarith
      obtain ⟨h1, h2⟩ := ih (t + 1/10 + (ticks n).gpuTime + sleepAmount I) (n + 1) hpre
      refine ⟨h1, Or.inr ?_⟩
      rcases h2 with h2 | h2
      · rw [h2, hadv]
        linarith
      · exact h2
    · rw [monitorGo_succ_neg _ _ _ _ _ _ htE]
      push_neg at htE
      exact ⟨htE, Or.inl rfl⟩

/-- Refutation of C1 as stated: a call with the vendor library absent returns
the all-None triple but emits no diagnostic, so the claimed conjunction
(returns all-absent AND emits a diagnostic) fails for that case. -/
theorem c1_counterexample :
    ¬ (∀ env : GpuEnv, env.amd_gpu_available = false →
        (get_amd_gpu_stats env).1 = (none, none, none) ∧
        (get_amd_gpu_stats env).2 ≠ []) := by
  intro h
  exact (h ⟨false, .ok []⟩ rfl).2 rfl

/-- C1 (amended): when the vendor library is not present, or no device is
enumerated, or the bulk-initialization step raises, get_amd_gpu_stats returns
all three metrics absent without interrupting the caller; a diagnostic line
is emitted only in the bulk-initialization-failure case, the other two cases
return silently. -/
theorem c1_degraded_cases (env : GpuEnv) :
    (env.amd_gpu_available = false →
      get_amd_gpu_stats env = ((none, none, none), [])) ∧
    (env.enum = .ok [] →
      (get_amd_gpu_stats env).1 = (none, none, none) ∧
      (get_amd_gpu_stats env).2 = []) ∧
    (∀ e, env.amd_gpu_available = true → env.enum = .exn e →
      get_amd_gpu_stats env = ((none, none, none), [errMsg e])) := by
  refine ⟨?_, ?_, ?_⟩
  · intro h
    simp [get_amd_gpu_stats, h]
  · intro h
    cases henv : env.amd_gpu_available
    · simp [get_amd_gpu_stats, henv]
    · simp [get_amd_gpu_stats, henv, h, readBody]
  · intro e h1 h2
    simp [get_amd_gpu_stats, h1, h2, readBody]

/-- Concrete instances of the three degraded cases of c1_degraded_cases. -/
theorem c1_witness :
    get_amd_gpu_stats ⟨false, .ok []⟩ = ((none, none, none), []) ∧
    (get_amd_gpu_stats ⟨true, .ok []⟩).1 = (none, none, none) ∧
    (get_amd_gpu_stats ⟨true, .ok []⟩).2 = [] ∧
    get_amd_gpu_stats ⟨true, .exn "boom"⟩
      = ((none, none, none), [errMsg "boom"]) :=
  ⟨(c1_degraded_cases ⟨false, .ok []⟩).1 rfl,
    ((c1_degraded_cases ⟨true, .ok []⟩).2.1 rfl).1,
    ((c1_degraded_cases ⟨true, .ok []⟩).2.1 rfl).2,
    (c1_degraded_cases ⟨true, .exn "boom"⟩).2.2 "boom" rfl rfl⟩

/-- C3: the power reading tries the direct watts probe first, falls back to
the milliwatt probe divided by 1000 when the direct probe is unsupported
(45000 raw milliwatts yield 45 watts), is absent when both are unsupported,
and the utilization and temperature components of the call are whatever their
own probes return, independent of the power tiers. -/
theorem c3_power_two_tier (gpu : Device) :
    (∀ v, gpu.getCurrentPower = .ok v → readPower gpu = .ok (some v)) ∧
    (∀ w, gpu.getCurrentPower = .attrErr → gpu.getCurrentPowerValue = .ok w →
      readPower gpu = .ok (some (w / 1000))) ∧
    (gpu.getCurrentPower = .attrErr → gpu.getCurrentPowerValue = .ok 45000 →
      readPower gpu = .ok (some 45)) ∧
    (gpu.getCurrentPower = .attrErr → gpu.getCurrentPowerValue = .attrErr →
      readPower gpu = .ok none) ∧
    (∀ u t p rest, tryAttr gpu.getCurrentUsage = .ok u →
      tryAttr gpu.getCurrentTemperature = .ok t → readPower gpu = .ok p →
      readBody (.ok (gpu :: rest)) = .ok (u, t, p)) := by
  refine ⟨?_, ?_, ?_, ?_, ?_⟩
  · intro v h
    simp [readPower, h]
  · intro w h1 h2
    simp [readPower, h1, h2]
  · intro h1 h2
    have h45 : (45000 : ℚ) / 1000 = 45 := by norm_num
    simp [readPower, h1, h2, h45]
  · intro h1 h2
    simp [readPower, h1, h2]
  · intro u t p rest h1 h2 h3
    simp [readBody, h1, h2, h3, Bind.bind, Except.bind, Pure.pure, Except.pure]

/-- Concrete instances of the power tiers of c3_power_two_tier. -/
theorem c3_witness :
    readPower ⟨.ok 30, .ok 60, .ok 100, .attrErr⟩ = .ok (some 100) ∧
    readPower ⟨.ok 30, .ok 60, .attrErr, .ok 45000⟩ = .ok (some 45) ∧
    readPower dev0 = .ok none ∧
    readBody (.ok [(⟨.ok 30, .ok 60, .attrErr, .ok 45000⟩ : Device)])
      = .ok (some 30, some 60, some 45) :=
  ⟨(c3_power_two_tier ⟨.ok 30, .ok 60, .ok 100, .attrErr⟩).1 100 rfl,
    (c3_power_two_tier ⟨.ok 30, .ok 60, .attrErr, .ok 45000⟩).2.2.1 rfl rfl,
    (c3_power_two_tier dev0).2.2.2.1 rfl rfl,
    (c3_power_two_tier ⟨.ok 30, .ok 60, .attrErr, .ok 45000⟩).2.2.2.2
      (some 30) (some 60) (some 45) [] rfl rfl
      ((c3_power_two_tier ⟨.ok 30, .ok 60, .attrErr, .ok 45000⟩).2.2.1 rfl rfl)⟩

/-- C10: every successful enumeration reads all three metrics from the first
enumerated device only; the body of the read is the same whatever devices
follow it, so other devices are never queried. -/
theorem c10_first_device (avail : Bool) (gpu : Device) (rest rest2 : List Device) :
    readBody (.ok (gpu :: rest)) = readBody (.ok [gpu]) ∧
    get_amd_gpu_stats ⟨avail, .ok (gpu :: rest)⟩
      = get_amd_gpu_stats ⟨avail, .ok (gpu :: rest2)⟩ := by
  refine ⟨rfl, ?_⟩
  cases avail <;> rfl

/-- C2: an unexpected failure raised during a GPU read (the body of the read
erring rather than a mere unsupported probe) is absorbed inside
get_amd_gpu_stats: the call returns all three metrics absent and the only
effect is the diagnostic line, so no exception reaches the loop. Moreover a
run whose tick streams differ only at tick k (same CPU value timing-wise
irrelevant, same GPU read time) produces collections of the same length, the
same exit clock, and identical samples at every index other than k; and every
sample stores exactly what its own tick read. -/
theorem c2_failure_absorbed (env : GpuEnv) (e : String)
    (hav : env.amd_gpu_available = true) (herr : readBody env.enum = .error e)
    (ticks1 ticks2 : ℕ → Tick) (k : ℕ)
    (hne : ∀ m, m ≠ k → ticks1 m = ticks2 m)
    (hgt : (ticks1 k).gpuTime = (ticks2 k).gpuTime)
    (D I t0 : ℚ) (fuel : ℕ) :
    get_amd_gpu_stats env = ((none, none, none), [errMsg e]) ∧
    (monitor_system ticks1 D I t0 fuel).2 = (monitor_system ticks2 D I t0 fuel).2 ∧
    (monitor_system ticks1 D I t0 fuel).1.length
      = (monitor_system ticks2 D I t0 fuel).1.length ∧
    (∀ j, j ≠ k → (monitor_system ticks1 D I t0 fuel).1[j]?
      = (monitor_system ticks2 D I t0 fuel).1[j]?) ∧
    (∀ j s, (monitor_system ticks1 D I t0 fuel).1[j]? = some s →
      s.gpu_util = (tickStats (ticks1 j)).1 ∧
      s.gpu_temp = (tickStats (ticks1 j)).2.1 ∧
      s.gpu_power = (tickStats (ticks1 j)).2.2) := by
  obtain ⟨g1, g2, g3⟩ :=
    monitorGo_congr_except ticks1 ticks2 k hne hgt I (t0 + D) fuel t0 0
  refine ⟨?_, g1, ?_, ?_, ?_⟩
  · simp [get_amd_gpu_stats, hav, herr]
  · simp only [monitor_system, List.length_map]
    exact g2
  · intro j hj
    have := g3 j (by omega)
    simpa [monitor_system] using this
  · intro j s hs
    have hs2 : ((monitorGo ticks1 I (t0 + D) t0 0 fuel).1.map Prod.fst)[j]?
        = some s := hs
    have hc := monitorGo_content ticks1 I (t0 + D) fuel t0 0 j s hs2
    rw [Nat.zero_add] at hc
    exact hc.2

/-- Concrete instance of c2_failure_absorbed: the GPU read raises on tick 3
of a run; the call degrades to all-absent with a diagnostic, the run with and
without the failure agree away from tick 3, and the first sample stores what
tick 0 read. -/
theorem c2_witness :
    get_amd_gpu_stats ⟨true, EnumResult.exn "boom"⟩
        = ((none, none, none), [errMsg "boom"]) ∧
    (monitor_system cticks 2 1 0 5).1[1]?
        = (monitor_system cticksF 2 1 0 5).1[1]? ∧
    (⟨1/10, 50, none, none, none⟩ : Sample).gpu_util = (tickStats (cticks 0)).1 := by
  have h := c2_failure_absorbed ⟨true, EnumResult.exn "boom"⟩ "boom" rfl rfl
    cticks cticksF 3 (fun m hm => by simp [cticksF, hm]) rfl 2 1 0 5
  refine ⟨h.1, h.2.2.2.1 1 (by omega), ?_⟩
  refine (h.2.2.2.2 0 ⟨1/10, 50, none, none, none⟩ ?_).1
  norm_num [monitor_system, monitorGo, tickSample, tickStats, get_amd_gpu_stats,
    sleepAmount, cticks, List.getElem?_cons_zero]

/-- C4: for every sample collection, each GPU aggregate is the mean over the
samples where that metric is present, and a metric absent in every sample is
reported unavailable, never as the number 0. -/
theorem c4_aggregate_mean (df : List Sample) (f : Sample → Option ℚ)
    (_hf : f = Sample.gpu_util ∨ f = Sample.gpu_temp ∨ f = Sample.gpu_power) :
    ((∀ s ∈ df, f s = none) → reportMetric f df = .unavailable) ∧
    (df.filterMap f ≠ [] →
      reportMetric f df
        = .value ((df.filterMap f).sum / (df.filterMap f).length)) ∧
    ((∀ s ∈ df, f s = none) → ∀ q, reportMetric f df ≠ .value q) ∧
    aggregateReport df
      = (reportMetric Sample.gpu_util df, reportMetric Sample.gpu_temp df,
        reportMetric Sample.gpu_power df) := by
  have hnil : (∀ s ∈ df, f s = none) → df.filterMap f = [] := fun h =>
    List.filterMap_eq_nil_iff.mpr h
  refine ⟨?_, ?_, ?_, rfl⟩
  · intro h
    simp [reportMetric, hnil h]
  · intro h
    simp [reportMetric, h]
  · intro h q
    simp [reportMetric, hnil h]

/-- Concrete instances of c4_aggregate_mean on dfW. -/
theorem c4_witness :
    reportMetric Sample.gpu_util dfW = .unavailable ∧
    (∀ q, reportMetric Sample.gpu_util dfW ≠ .value q) ∧
    reportMetric Sample.gpu_power dfW
      = .value ((dfW.filterMap Sample.gpu_power).sum
          / (dfW.filterMap Sample.gpu_power).length) := by
  have hu := c4_aggregate_mean dfW Sample.gpu_util (Or.inl rfl)
  have hp := c4_aggregate_mean dfW Sample.gpu_power (Or.inr (Or.inr rfl))
  have hnone : ∀ s ∈ dfW, Sample.gpu_util s = none := by
    intro s hs
    simp [dfW] at hs
    rcases hs with rfl | rfl <;> rfl
  refine ⟨hu.1 hnone, hu.2.2.1 hnone, hp.2.1 ?_⟩
  simp [dfW, List.filterMap]

/-- C5: with pyadl absent at process start, main prints the installation
guidance and returns early; no monitoring run happens and no sample
collection is produced. -/
theorem c5_gpu_gate (ticks : ℕ → Tick) (t0 : ℚ) (fuel : ℕ)
    (saveInput stamp : String) :
    main true false ticks t0 fuel saveInput stamp = .gpuGuidance pyadlGuidance ∧
    ∀ df rep ex, main true false ticks t0 fuel saveInput stamp ≠ .ran df rep ex := by
  refine ⟨rfl, ?_⟩
  intro df rep ex h
  simp [main] at h

/-- Concrete instance of c5_gpu_gate. -/
theorem c5_witness :
    main true false cticks 0 5 "s" "20250101_120000" = .gpuGuidance pyadlGuidance ∧
    main true false cticks 0 5 "s" "20250101_120000"
      ≠ .ran [] (aggregateReport []) none :=
  ⟨(c5_gpu_gate cticks 0 5 "s" "20250101_120000").1,
    (c5_gpu_gate cticks 0 5 "s" "20250101_120000").2 [] (aggregateReport []) none⟩

/-- Refutation of C6 as stated: the prompt answer is lowercased before the
comparison, so the single-character response S, which is not the string s,
also triggers the export instead of skipping it. -/
theorem c6_counterexample :
    ¬ (∀ inp : String, inp ≠ "s" →
        saveData inp "20250101_120000" [] = none) := by
  intro h
  have h2 := h "S" (by decide)
  rw [show saveData "S" "20250101_120000" []
      = some (csvFilename "20250101_120000", to_csv []) from rfl] at h2
  exact Option.noConfusion h2

/-- C6 (amended): the export triggers exactly when the lowercased response is
the letter s (so s and S trigger, anything else skips); the exported file has
the header row timestamp,cpu_util,gpu_util,gpu_temp,gpu_power, one row per
sample, and the name rx460_monitor_ followed by the capture stamp and the
.csv suffix. -/
theorem c6_export (inp stamp : String) (df : List Sample) :
    ((saveData inp stamp df).isSome ↔ pyLower inp = "s") ∧
    (pyLower inp = "s" →
      saveData inp stamp df = some (csvFilename stamp, to_csv df)) ∧
    (pyLower inp ≠ "s" → saveData inp stamp df = none) ∧
    (to_csv df).head? = some csvHeader ∧
    (to_csv df).length = df.length + 1 ∧
    (∀ j, (to_csv df)[j + 1]? = (df[j]?).map csvRow) ∧
    csvFilename stamp = "rx460_monitor_" ++ stamp ++ ".csv" := by
  refine ⟨?_, ?_, ?_, rfl, by simp [to_csv], ?_, rfl⟩
  · by_cases h : pyLower inp = "s" <;> simp [saveData, h]
  · intro h
    simp [saveData, h]
  · intro h
    simp [saveData, h]
  · intro j
    simp [to_csv, List.getElem?_cons_succ, List.getElem?_map]

/-- Concrete instances of c6_export. -/
theorem c6_witness :
    (saveData "s" "20250101_120000" dfW).isSome ∧
    saveData "n" "20250101_120000" dfW = none ∧
    (to_csv dfW).head? = some csvHeader ∧
    (to_csv dfW).length = dfW.length + 1 ∧
    csvFilename "20250101_120000" = "rx460_monitor_" ++ "20250101_120000" ++ ".csv" := by
  have h1 := c6_export "s" "20250101_120000" dfW
  have h2 := c6_export "n" "20250101_120000" dfW
  exact ⟨h1.1.mpr rfl, h2.2.2.1 (by decide), h1.2.2.2.1, h1.2.2.2.2.1,
    h1.2.2.2.2.2.2⟩

/-- Refutation of C7 as stated: in a run with duration 2 and interval 1
(interval at most duration, instantaneous GPU reads), the collected
timestamps span 1, which is not in the claimed half-open range from 2 to 3;
the span sits one interval short of the duration because the last tick starts
before the deadline and stamps early in its period. -/
theorem c7_counterexample :
    ¬ (2 ≤ tsSpan (monitor_system cticks 2 1 0 5).1 ∧
        tsSpan (monitor_system cticks 2 1 0 5).1 < 2 + 1) := by
  have hlist : (monitor_system cticks 2 1 0 5).1
      = [⟨1/10, 50, none, none, none⟩, ⟨11/10, 50, none, none, none⟩] := by
    norm_num [monitor_system, monitorGo, tickSample, tickStats, get_amd_gpu_stats,
      sleepAmount, cticks]
  have hv : tsSpan [(⟨1/10, 50, none, none, none⟩ : Sample),
      ⟨11/10, 50, none, none, none⟩] = 11/10 - 1/10 := rfl
  rw [hlist, hv]
  norm_num

/-- C7 (amended): for durations D and intervals I with the 0.1 CPU
sub-interval at most I and I at most D, given instantaneous GPU reads and
enough fuel, the loop only exits once the clock has advanced at least D from
loop start, and the elapsed time from loop start to loop exit lies in the
half-open range from D to D plus I; the timestamps themselves span less than
that. -/
theorem c7_elapsed (ticks : ℕ → Tick) (D I t0 : ℚ) (fuel : ℕ)
    (hgt : ∀ n, (ticks n).gpuTime = 0) (hI : 1/10 ≤ I) (hID : I ≤ D)
    (hfuel : D ≤ (fuel : ℚ) * (1/10)) :
    D ≤ (monitor_system ticks D I t0 fuel).2 - t0 ∧
    (monitor_system ticks D I t0 fuel).2 - t0 < D + I := by
  obtain ⟨h1, h2⟩ :=
    monitorGo_exit ticks I (t0 + D) hgt hI fuel t0 0 (by linarith)
  have hms : (monitor_system ticks D I t0 fuel).2
      = (monitorGo ticks I (t0 + D) t0 0 fuel).2 := rfl
  rw [hms]
  constructor
  · linarith
  · rcases h2 with h2 | h2
    · rw [h2] at h1 ⊢
      linarith
    · linarith

/-- Concrete instance of c7_elapsed: duration 2, interval 1. -/
theorem c7_witness :
    2 ≤ (monitor_system cticks 2 1 0 30).2 - 0 ∧
    (monitor_system cticks 2 1 0 30).2 - 0 < 2 + 1 :=
  c7_elapsed cticks 2 1 0 30 (fun _ => rfl) (by norm_num) (by norm_num)
    (by norm_num)

/-- C8: after each tick the loop sleeps exactly max(0, interval - 0.1), the
0.1 being the blocking CPU-sampling sub-interval of the tick, and when that
sub-interval is at most the interval (and the GPU read is instantaneous) the
clock advances by exactly one interval per tick. -/
theorem c8_pacing (ticks : ℕ → Tick) (I eT t : ℚ) (n fuel : ℕ) (ht : t < eT) :
    sleepAmount I = max 0 (I - 1/10) ∧
    monitorGo ticks I eT t n (fuel + 1)
      = ((tickSample (ticks n) (t + 1/10 + (ticks n).gpuTime), tickLine (ticks n)) ::
          (monitorGo ticks I eT (t + 1/10 + (ticks n).gpuTime + sleepAmount I)
            (n + 1) fuel).1,
        (monitorGo ticks I eT (t + 1/10 + (ticks n).gpuTime + sleepAmount I)
          (n + 1) fuel).2) ∧
    (1/10 ≤ I → (ticks n).gpuTime = 0 →
      t + 1/10 + (ticks n).gpuTime + sleepAmount I = t + I) := by
  refine ⟨rfl, monitorGo_succ_pos _ _ _ _ _ _ ht, ?_⟩
  intro hI hg
  rw [hg, sleepAmount_of_le hI]
  ring

/-- Concrete instance of c8_pacing on the first tick of a run. -/
theorem c8_witness :
    sleepAmount 1 = max 0 (1 - 1/10) ∧
    0 + 1/10 + (cticks 0).gpuTime + sleepAmount 1 = 0 + 1 := by
  have h := c8_pacing cticks 1 2 0 0 4 (by norm_num)
  exact ⟨h.1, h.2.2 (by norm_num) rfl⟩

/-- C9: the live status line renders the N/A placeholder for GPU utilization
and temperature whenever the value is falsy, so a tick reading exactly 0 for
either displays the placeholder while its appended sample still stores the
present value 0; the collection monitor_system returns is the sample
component of the tick outputs, untouched by the rendered lines. -/
theorem c9_zero_display (tk : Tick) (ts : ℚ)
    (hu : (tickStats tk).1 = some 0) (ht2 : (tickStats tk).2.1 = some 0) :
    tickLine tk = statusLine tk.cpu_util (some 0) (some 0) (tickStats tk).2.2 ∧
    pyOrNA (some 0) = "N/A" ∧
    (∀ v : Option ℚ, v = none ∨ v = some 0 → pyOrNA v = "N/A") ∧
    (tickSample tk ts).gpu_util = some 0 ∧
    (tickSample tk ts).gpu_temp = some 0 ∧
    (∀ ticksS : ℕ → Tick, ∀ d i t0 : ℚ, ∀ fuel : ℕ,
      (monitor_system ticksS d i t0 fuel).1
        = ((monitorGo ticksS i (t0 + d) t0 0 fuel).1).map Prod.fst) := by
  refine ⟨by rw [tickLine, hu, ht2], by simp [pyOrNA], ?_,
    by simp [tickSample, hu], by simp [tickSample, ht2],
    fun _ _ _ _ _ => rfl⟩
  rintro v (rfl | rfl) <;> simp [pyOrNA]

/-- Concrete instance of c9_zero_display on a tick whose device reads 0 for
both utilization and temperature. -/
theorem c9_witness :
    tickLine tk0 = statusLine tk0.cpu_util (some 0) (some 0) (tickStats tk0).2.2 ∧
    pyOrNA (some 0) = "N/A" ∧
    (tickSample tk0 (1/10)).gpu_util = some 0 ∧
    (tickSample tk0 (1/10)).gpu_temp = some 0 := by
  have h := c9_zero_display tk0 (1/10) rfl rfl
  exact ⟨h.1, h.2.1, h.2.2.2.1, h.2.2.2.2.1⟩

end AmdMon
